import Mathlib

/-!
Shallow embedding of the RSI trading bot's decision engine
(`src/indicators/technical_indicators.py`, `src/models/trading_models.py`,
`src/core/risk_manager.py`, `src/core/trading_bot.py`,
`src/strategies/rsi_strategy.py`).

Python floats are modelled as exact rationals; the IEEE special values that
the code can actually produce (the `0/0 -> NaN` and `x/0 -> inf` paths of the
pandas RSI computation, and Python `ZeroDivisionError` on float division by
zero) are modelled by explicit case analysis at the exact places the source
divides.  Wall-clock times (`datetime.now()`, `entry_time`, the various
`*_time` fields) are modelled as rational numbers of hours, with all
`datetime.now()` calls inside one method call reading the same instant `now`,
which is passed as an argument.  Fallible code returns `Except PyError`.
-/

namespace RSIBot

/-- Python exceptions that the embedded code can raise. -/
inductive PyError where
  | typeError
  | zeroDivisionError
deriving DecidableEq, Repr

/-- `src/utils/helpers.py`: `calculate_percentage(percentage, value) =
(percentage / 100) * value`. -/
def calculate_percentage (percentage value : ℚ) : ℚ :=
  (percentage / 100) * value

/-! ## Momentum indicator (`TechnicalIndicators.calculate_rsi`)

`calculate_rsi(prices, period)` builds the series of consecutive differences
(`prices_series.diff()`), splits it into gains `max(delta, 0)` and losses
`max(-delta, 0)` (the leading NaN of `diff` is replaced by `0` by
`delta.where(...)`, and never enters the final rolling window anyway), takes
rolling means over `period` values, and returns
`100 - 100 / (1 + avg_gain / avg_loss)` at the last index.
The final rolling window covers exactly the last `period` differences.
Float special cases at that last index:
* `avg_gain = 0` and `avg_loss = 0`: `0/0 = NaN`, so `pd.isna` is true and
  the function returns `None`;
* `avg_loss = 0 < avg_gain`: `rs = inf`, `100 - 100/(1+inf) = 100`. -/

/-- Consecutive differences of a price list: `prices_series.diff()` without
its leading NaN. -/
def deltasOf (prices : List ℚ) : List ℚ :=
  List.zipWith (fun a b => b - a) prices prices.tail

/-- The last `n` elements of a list (the final rolling window). -/
def lastWindow (n : ℕ) (xs : List ℚ) : List ℚ :=
  xs.drop (xs.length - n)

/-- Positive parts of the deltas (`delta.where(delta > 0, 0)`). -/
def gainsOf (deltas : List ℚ) : List ℚ :=
  deltas.map (fun d => max d 0)

/-- Negative parts of the deltas (`(-delta).where(delta < 0, 0)`). -/
def lossesOf (deltas : List ℚ) : List ℚ :=
  deltas.map (fun d => max (-d) 0)

/-- `TechnicalIndicators.calculate_rsi` from
`src/indicators/technical_indicators.py`. -/
def calculate_rsi (prices : List ℚ) (period : ℕ) : Option ℚ :=
  if prices.length < period + 1 then none
  else
    let window := lastWindow period (deltasOf prices)
    let avg_gain := (gainsOf window).sum / (period : ℚ)
    let avg_loss := (lossesOf window).sum / (period : ℚ)
    if avg_gain = 0 ∧ avg_loss = 0 then none
    else if avg_loss = 0 then some 100
    else some (100 - 100 / (1 + avg_gain / avg_loss))

/-! ## Position (`src/models/trading_models.py`)

The `Position` dataclass has no `side` field; `update` computes the same
long-oriented P&L formulas whatever kind of position the object tracks. -/

/-- The `Position` dataclass (times in hours). -/
structure Position where
  quantity : ℚ
  entry_price : ℚ
  entry_time : ℚ
  entry_rsi : ℚ
  current_price : ℚ := 0
  current_rsi : ℚ := 0
  unrealized_pnl : ℚ := 0
  unrealized_pnl_percentage : ℚ := 0
deriving DecidableEq, Repr

/-- `Position.update(current_price, current_rsi)`. -/
def Position.update (p : Position) (current_price current_rsi : ℚ) : Position :=
  { p with
    current_price := current_price
    current_rsi := current_rsi
    unrealized_pnl := (current_price - p.entry_price) * p.quantity
    unrealized_pnl_percentage := (current_price / p.entry_price - 1) * 100 }

/-! ## Risk manager (`src/core/risk_manager.py`) -/

/-- The mutable state and configuration of `RiskManager`. -/
structure RiskManagerState where
  initial_balance : ℚ
  max_risk_per_trade_pct : ℚ
  max_drawdown_pct : ℚ
  dynamic_position_sizing : Bool
  peak_balance : ℚ
  current_drawdown_pct : ℚ
deriving DecidableEq, Repr

/-- `RiskManager.__init__(config, initial_balance)`:
`peak_balance = initial_balance`, `current_drawdown_pct = 0.0`. -/
def RiskManagerState.init (max_risk_per_trade_pct max_drawdown_pct : ℚ)
    (dynamic_position_sizing : Bool) (initial_balance : ℚ) : RiskManagerState :=
  { initial_balance := initial_balance
    max_risk_per_trade_pct := max_risk_per_trade_pct
    max_drawdown_pct := max_drawdown_pct
    dynamic_position_sizing := dynamic_position_sizing
    peak_balance := initial_balance
    current_drawdown_pct := 0 }

/-- `RiskManager.calculate_position_size`; raises `ZeroDivisionError`
exactly where the Python float division has a zero denominator. -/
def calculate_position_size (rm : RiskManagerState)
    (current_balance entry_price : ℚ) (stop_loss_price : Option ℚ)
    (leverage : ℚ) : Except PyError ℚ :=
  if !rm.dynamic_position_sizing then
    if entry_price = 0 then .error .zeroDivisionError
    else .ok (current_balance / entry_price)
  else
    let risk_amount := current_balance * (rm.max_risk_per_trade_pct / 100)
    match stop_loss_price with
    | some sl =>
      if 0 < sl then
        let risk_per_unit := |entry_price - sl|
        if 0 < risk_per_unit then .ok (risk_amount / risk_per_unit)
        else if entry_price = 0 then .error .zeroDivisionError
        else .ok (risk_amount / entry_price)
      else
        if entry_price = 0 then .error .zeroDivisionError
        else .ok (current_balance * leverage * (rm.max_risk_per_trade_pct / 100) / entry_price)
    | none =>
      if entry_price = 0 then .error .zeroDivisionError
      else .ok (current_balance * leverage * (rm.max_risk_per_trade_pct / 100) / entry_price)

/-- `RiskManager._update_drawdown(current_balance)`; state passing replaces
the in-place mutation of `peak_balance` / `current_drawdown_pct`. -/
def update_drawdown (rm : RiskManagerState) (current_balance : ℚ) :
    Except PyError RiskManagerState :=
  if rm.peak_balance < current_balance then
    .ok { rm with peak_balance := current_balance, current_drawdown_pct := 0 }
  else if rm.peak_balance = 0 then .error .zeroDivisionError
  else
    .ok { rm with
      current_drawdown_pct :=
        (rm.peak_balance - current_balance) / rm.peak_balance * 100 }

/-- The failure/success verdicts `validate_trade` can report. -/
inductive ValidationVerdict where
  | insufficientBalance
  | oversizedPosition
  | drawdownLimit
  | validated
deriving DecidableEq, Repr

/-- `RiskManager.validate_trade(current_balance, position_size, entry_price,
stats)`; its parameter list accepts exactly these four data arguments.
`stats : Bool` records whether a `stats` object was supplied (`if stats:`). -/
def validate_trade (rm : RiskManagerState)
    (current_balance position_size entry_price : ℚ) (stats : Bool) :
    Except PyError (RiskManagerState × Bool × ValidationVerdict) :=
  if current_balance ≤ 0 then .ok (rm, false, .insufficientBalance)
  else
    let trade_value := position_size * entry_price
    if current_balance * (101 / 100) < trade_value then
      .ok (rm, false, .oversizedPosition)
    else if stats then
      match update_drawdown rm current_balance with
      | .error e => .error e
      | .ok rm' =>
        if rm.max_drawdown_pct ≤ rm'.current_drawdown_pct then
          .ok (rm', false, .drawdownLimit)
        else .ok (rm', true, .validated)
    else .ok (rm, true, .validated)

/-- `RiskManager.get_risk_status(current_balance, stats)` runs
`_update_drawdown(current_balance)` first and then only reads state. -/
def get_risk_status (rm : RiskManagerState) (current_balance : ℚ) :
    Except PyError RiskManagerState :=
  update_drawdown rm current_balance

/-! ## RSI strategy (`src/strategies/rsi_strategy.py`) -/

/-- The `config.trading` fields `RSIStrategy` reads. -/
structure StrategyConfig where
  rsi_overbought : ℚ
  rsi_oversold : ℚ
  min_profit_pct : ℚ
  big_profit_pct : ℚ
  sell_at_loss_0_5_hours : ℚ
  sell_at_loss_1_0_hours : ℚ
  sell_at_loss_2_0_hours : ℚ
  max_hold_hours : ℚ
  min_rsi_counter : ℤ
  rsi_bounce_threshold : ℚ
  min_time_after_sell : ℚ
deriving DecidableEq, Repr

/-- The defaults of `config/settings.py`. -/
def defaultConfig : StrategyConfig :=
  { rsi_overbought := 70
    rsi_oversold := 30
    min_profit_pct := 3/4
    big_profit_pct := 3
    sell_at_loss_0_5_hours := 1/2
    sell_at_loss_1_0_hours := 3/2
    sell_at_loss_2_0_hours := 5/2
    max_hold_hours := 4
    min_rsi_counter := 3
    rsi_bounce_threshold := 3
    min_time_after_sell := 5 }

/-- The mutable fields of `RSIStrategy`.  `lowest_price = none` models the
initial `float('inf')`; all times are hours. -/
structure StrategyState where
  highest_price : ℚ := 0
  lowest_price : Option ℚ := none
  lowest_rsi : ℚ := 100
  highest_rsi : ℚ := 0
  oversold_counter : ℤ := 0
  oversold_intensity : ℚ := 0
  oversold_start_time : Option ℚ := none
  overbought_counter : ℤ := 0
  overbought_intensity : ℚ := 0
  overbought_start_time : Option ℚ := none
  last_sell_time : Option ℚ := none
  sell_at_buyprice : Bool := false
  sell_fast : Bool := false
  sell_very_fast : Bool := false
  very_fast_lose_amt : ℚ := 1
  sell_very_fast_time : Option ℚ := none
deriving DecidableEq, Repr

/-- `RSIStrategy.__init__` state. -/
def initialStrategyState : StrategyState := {}

/-- `RSIStrategy.update_price_extremes(current_price, current_rsi)`. -/
def update_price_extremes (s : StrategyState) (current_price current_rsi : ℚ) :
    StrategyState :=
  { s with
    highest_price :=
      if s.highest_price < current_price then current_price else s.highest_price
    lowest_price :=
      match s.lowest_price with
      | none => some current_price
      | some lp => if current_price < lp then some current_price else some lp
    lowest_rsi := if current_rsi < s.lowest_rsi then current_rsi else s.lowest_rsi
    highest_rsi := if s.highest_rsi < current_rsi then current_rsi else s.highest_rsi }

/-- `RSIStrategy.reset_extremes()`. -/
def reset_extremes (s : StrategyState) : StrategyState :=
  { s with highest_price := 0, lowest_price := none,
           lowest_rsi := 100, highest_rsi := 0 }

/-- The oversold intensity/counter block of `RSIStrategy.should_buy`
(the four-way `if current_rsi < self.rsi_oversold ... else` ladder). -/
def oversold_update (cfg : StrategyConfig) (s : StrategyState) (now rsi : ℚ) :
    StrategyState :=
  if rsi < cfg.rsi_oversold then
    let start := s.oversold_start_time.getD now
    let intensity := s.oversold_intensity + (1 + (cfg.rsi_oversold - rsi) / 10)
    let intensity := if 5 < (now - start) * 60 then intensity + 1/2 else intensity
    { s with oversold_start_time := some start
             oversold_intensity := intensity
             oversold_counter := s.oversold_counter + 1 }
  else if rsi < cfg.rsi_oversold + 5 then
    { s with oversold_intensity := max 0 (s.oversold_intensity - 1/5) }
  else if rsi < 45 then
    { s with oversold_intensity := max 0 (s.oversold_intensity - 1/2)
             oversold_counter :=
               if 0 < s.oversold_counter then max 0 (s.oversold_counter - 1)
               else s.oversold_counter }
  else
    if 5 < s.oversold_intensity then
      { s with oversold_intensity := max 0 (s.oversold_intensity - 2) }
    else
      { s with oversold_intensity := 0, oversold_counter := 0,
               oversold_start_time := none }

/-- The overbought intensity/counter block of `RSIStrategy.should_short`. -/
def overbought_update (cfg : StrategyConfig) (s : StrategyState) (now rsi : ℚ) :
    StrategyState :=
  if cfg.rsi_overbought < rsi then
    let start := s.overbought_start_time.getD now
    let intensity := s.overbought_intensity + (1 + (rsi - cfg.rsi_overbought) / 10)
    let intensity := if 5 < (now - start) * 60 then intensity + 1/2 else intensity
    { s with overbought_start_time := some start
             overbought_intensity := intensity
             overbought_counter := s.overbought_counter + 1 }
  else if cfg.rsi_overbought - 5 < rsi then
    { s with overbought_intensity := max 0 (s.overbought_intensity - 1/5) }
  else if 55 < rsi then
    { s with overbought_intensity := max 0 (s.overbought_intensity - 1/2)
             overbought_counter :=
               if 0 < s.overbought_counter then max 0 (s.overbought_counter - 1)
               else s.overbought_counter }
  else
    if 5 < s.overbought_intensity then
      { s with overbought_intensity := max 0 (s.overbought_intensity - 2) }
    else
      { s with overbought_intensity := 0, overbought_counter := 0,
               overbought_start_time := none }

/-- `RSIStrategy.should_buy(current_price, current_rsi, closes, in_position)`;
returns the updated state and the signal flag. -/
def should_buy (cfg : StrategyConfig) (s : StrategyState)
    (now current_price current_rsi : ℚ) (in_position : Bool) :
    StrategyState × Bool :=
  if in_position then (s, false)
  else if (match s.last_sell_time with
           | some t => decide ((now - t) * 60 < cfg.min_time_after_sell)
           | none => false) then (s, false)
  else
    let s := update_price_extremes s current_price current_rsi
    let top_price_threshold :=
      s.highest_price - calculate_percentage (3/4) s.highest_price
    let s := oversold_update cfg s now current_rsi
    if (cfg.min_rsi_counter ≤ s.oversold_counter ∨ 10 ≤ s.oversold_intensity) ∧
        current_price ≤ top_price_threshold ∧
        (s.lowest_rsi < cfg.rsi_oversold ∧
         cfg.rsi_bounce_threshold ≤ current_rsi - s.lowest_rsi) then
      ({ s with oversold_counter := 0, oversold_intensity := 0,
                oversold_start_time := none, lowest_rsi := 100 }, true)
    else (s, false)

/-- `RSIStrategy.should_short(current_price, current_rsi, closes,
in_position)`. -/
def should_short (cfg : StrategyConfig) (s : StrategyState)
    (now current_price current_rsi : ℚ) (in_position : Bool) :
    StrategyState × Bool :=
  if in_position then (s, false)
  else if (match s.last_sell_time with
           | some t => decide ((now - t) * 60 < cfg.min_time_after_sell)
           | none => false) then (s, false)
  else
    let s := update_price_extremes s current_price current_rsi
    let price_condition_met : Bool :=
      match s.lowest_price with
      | none => false
      | some lp => decide (lp + calculate_percentage (3/4) lp ≤ current_price)
    let s := overbought_update cfg s now current_rsi
    if (cfg.min_rsi_counter ≤ s.overbought_counter ∨ 10 ≤ s.overbought_intensity) ∧
        price_condition_met = true ∧
        (cfg.rsi_overbought < s.highest_rsi ∧
         cfg.rsi_bounce_threshold ≤ s.highest_rsi - current_rsi) then
      ({ s with overbought_counter := 0, overbought_intensity := 0,
                overbought_start_time := none, highest_rsi := 0 }, true)
    else (s, false)

/-- The price trend classification of `_should_close_long`. -/
inductive Trend where
  | recovering
  | deteriorating
  | neutral
deriving DecidableEq, Repr

/-- Trend for a LONG position: `recent_change > -0.3` is recovering,
`recent_change < -1.5` deteriorating. -/
def long_trend (entry price : ℚ) : Trend :=
  let recent_change := (price - entry) / entry * 100
  if -(3/10) < recent_change then .recovering
  else if recent_change < -(3/2) then .deteriorating
  else .neutral

/-- Trend for a SHORT position: `recent_change < 0.3` is recovering,
`recent_change > 1.5` deteriorating. -/
def short_trend (entry price : ℚ) : Trend :=
  let recent_change := (price - entry) / entry * 100
  if recent_change < 3/10 then .recovering
  else if 3/2 < recent_change then .deteriorating
  else .neutral

/-- `RSIStrategy._reset_sell_flags()`. -/
def reset_sell_flags (s : StrategyState) : StrategyState :=
  { s with sell_at_buyprice := false, sell_fast := false, sell_very_fast := false,
           very_fast_lose_amt := 1, sell_very_fast_time := none }

/-- Every `return True` path of the close logic runs `_reset_sell_flags()`
and then sets `last_sell_time = datetime.now()`. -/
def close_commit (s : StrategyState) (now : ℚ) : StrategyState :=
  { reset_sell_flags s with last_sell_time := some now }

/-- Mode 1 of `_should_close_long`: latch `sell_at_buyprice` on a ≥0.5%
adverse move after an adaptive hour threshold. -/
def latch_tier1_long (cfg : StrategyConfig) (s : StrategyState)
    (entry price hours_held : ℚ) : StrategyState :=
  if s.sell_at_buyprice = false ∧
      price ≤ entry - calculate_percentage (1/2) entry ∧
      cfg.sell_at_loss_0_5_hours *
        (match long_trend entry price with
         | .deteriorating => 7/10 | .recovering => 13/10 | .neutral => 1) ≤
        hours_held then
    { s with sell_at_buyprice := true }
  else s

/-- Mode 2 of `_should_close_long`: latch `sell_fast` at a ≥1.0% adverse
move. -/
def latch_tier2_long (cfg : StrategyConfig) (s : StrategyState)
    (entry price hours_held : ℚ) : StrategyState :=
  if s.sell_fast = false ∧
      price ≤ entry - calculate_percentage 1 entry ∧
      cfg.sell_at_loss_1_0_hours *
        (match long_trend entry price with
         | .deteriorating => 3/4 | .recovering => 6/5 | .neutral => 1) ≤
        hours_held then
    { s with sell_fast := true }
  else s

/-- Mode 3 of `_should_close_long`: latch `sell_very_fast` at a ≥2.0%
adverse move, recording the activation time and resetting the loss
tolerance to 1.0. -/
def latch_tier3_long (cfg : StrategyConfig) (s : StrategyState)
    (entry now price hours_held : ℚ) : StrategyState :=
  if s.sell_very_fast = false ∧
      price ≤ entry - calculate_percentage 2 entry ∧
      cfg.sell_at_loss_2_0_hours *
        (match long_trend entry price with
         | .deteriorating => 4/5 | _ => 1) ≤
        hours_held then
    { s with sell_very_fast := true, sell_very_fast_time := some now,
             very_fast_lose_amt := 1 }
  else s

/-- The three flag-latching blocks of `_should_close_long` (modes 1-3). -/
def latch_long (cfg : StrategyConfig) (s : StrategyState)
    (entry now price hours_held : ℚ) : StrategyState :=
  latch_tier3_long cfg
    (latch_tier2_long cfg (latch_tier1_long cfg s entry price hours_held)
      entry price hours_held)
    entry now price hours_held

/-- Mode 1 of `_should_close_short` (adverse move is a price RISE above
entry). -/
def latch_tier1_short (cfg : StrategyConfig) (s : StrategyState)
    (entry price hours_held : ℚ) : StrategyState :=
  if s.sell_at_buyprice = false ∧
      entry + calculate_percentage (1/2) entry ≤ price ∧
      cfg.sell_at_loss_0_5_hours *
        (match short_trend entry price with
         | .deteriorating => 7/10 | .recovering => 13/10 | .neutral => 1) ≤
        hours_held then
    { s with sell_at_buyprice := true }
  else s

/-- Mode 2 of `_should_close_short`. -/
def latch_tier2_short (cfg : StrategyConfig) (s : StrategyState)
    (entry price hours_held : ℚ) : StrategyState :=
  if s.sell_fast = false ∧
      entry + calculate_percentage 1 entry ≤ price ∧
      cfg.sell_at_loss_1_0_hours *
        (match short_trend entry price with
         | .deteriorating => 3/4 | .recovering => 6/5 | .neutral => 1) ≤
        hours_held then
    { s with sell_fast := true }
  else s

/-- Mode 3 of `_should_close_short`. -/
def latch_tier3_short (cfg : StrategyConfig) (s : StrategyState)
    (entry now price hours_held : ℚ) : StrategyState :=
  if s.sell_very_fast = false ∧
      entry + calculate_percentage 2 entry ≤ price ∧
      cfg.sell_at_loss_2_0_hours *
        (match short_trend entry price with
         | .deteriorating => 4/5 | _ => 1) ≤
        hours_held then
    { s with sell_very_fast := true, sell_very_fast_time := some now,
             very_fast_lose_amt := 1 }
  else s

/-- The three flag-latching blocks of `_should_close_short`. -/
def latch_short (cfg : StrategyConfig) (s : StrategyState)
    (entry now price hours_held : ℚ) : StrategyState :=
  latch_tier3_short cfg
    (latch_tier2_short cfg (latch_tier1_short cfg s entry price hours_held)
      entry price hours_held)
    entry now price hours_held

/-- The progressive loss-tolerance ratchet of very-fast mode (shared text in
`_should_close_long` and `_should_close_short`). -/
def ratchet_very_fast (s : StrategyState) (now : ℚ) : StrategyState :=
  if s.sell_very_fast then
    match s.sell_very_fast_time with
    | some t =>
      let vf_hours := now - t
      let amt := if 1/2 ≤ vf_hours then 3/2 else s.very_fast_lose_amt
      let amt := if 1 ≤ vf_hours then 2 else amt
      let amt := if 3/2 ≤ vf_hours then 3 else amt
      { s with very_fast_lose_amt := amt }
    | none => s
  else s

/-- Which `return True` branch of the close logic fired. -/
inductive CloseReason where
  | maxHoldLoss
  | maxHoldExtreme
  | tierEntry
  | tierFast
  | tierVeryFast
  | bigProfit
  | extremePeak
deriving DecidableEq, Repr

/-- The `result_type` string: `win`, `loss` or `neutral`. -/
inductive CloseResult where
  | win
  | loss
  | neutral
deriving DecidableEq, Repr

/-- The return ladder of `_should_close_long` after the flags were latched:
max-hold branches, the three tier exits guarded by `current_rsi <
rsi_oversold`, the big-profit exit, and the overbought-peak exit. -/
def close_decision_long (cfg : StrategyConfig) (s : StrategyState)
    (pos : Position) (now price rsi hours_held : ℚ) :
    StrategyState × Option (CloseReason × CloseResult) :=
  if cfg.max_hold_hours ≤ hours_held ∧ pos.unrealized_pnl < 0 then
    (close_commit s now, some (.maxHoldLoss, .loss))
  else if cfg.max_hold_hours ≤ hours_held ∧ cfg.rsi_overbought < rsi then
    (close_commit s now,
     some (.maxHoldExtreme, if 0 < pos.unrealized_pnl then .win else .neutral))
  else if rsi < cfg.rsi_oversold ∧ s.sell_at_buyprice = true ∧
      pos.entry_price + calculate_percentage (3/20) pos.entry_price ≤ price then
    (close_commit s now, some (.tierEntry, .win))
  else if rsi < cfg.rsi_oversold ∧ s.sell_fast = true ∧
      pos.entry_price - calculate_percentage (3/4) pos.entry_price ≤ price then
    (close_commit s now, some (.tierFast, .loss))
  else if rsi < cfg.rsi_oversold ∧ s.sell_very_fast = true ∧
      pos.entry_price - calculate_percentage s.very_fast_lose_amt pos.entry_price ≤ price then
    (close_commit s now, some (.tierVeryFast, .loss))
  else if pos.entry_price + calculate_percentage cfg.big_profit_pct pos.entry_price ≤ price then
    (close_commit s now, some (.bigProfit, .win))
  else if cfg.rsi_overbought ≤ rsi ∧
      pos.entry_price + calculate_percentage cfg.min_profit_pct pos.entry_price ≤ price ∧
      rsi + 3 ≤ s.highest_rsi then
    ({ close_commit s now with highest_rsi := 0 }, some (.extremePeak, .win))
  else (s, none)

/-- The return ladder of `_should_close_short` (inverted price comparisons;
the tier exits are guarded by `current_rsi < rsi_oversold` and the
min-profit exit by `current_rsi <= rsi_oversold`). -/
def close_decision_short (cfg : StrategyConfig) (s : StrategyState)
    (pos : Position) (now price rsi hours_held : ℚ) :
    StrategyState × Option (CloseReason × CloseResult) :=
  if cfg.max_hold_hours ≤ hours_held ∧ pos.unrealized_pnl < 0 then
    (close_commit s now, some (.maxHoldLoss, .loss))
  else if cfg.max_hold_hours ≤ hours_held ∧ rsi < cfg.rsi_oversold then
    (close_commit s now,
     some (.maxHoldExtreme, if 0 < pos.unrealized_pnl then .win else .neutral))
  else if rsi < cfg.rsi_oversold ∧ s.sell_at_buyprice = true ∧
      price ≤ pos.entry_price - calculate_percentage (3/20) pos.entry_price then
    (close_commit s now, some (.tierEntry, .win))
  else if rsi < cfg.rsi_oversold ∧ s.sell_fast = true ∧
      price ≤ pos.entry_price + calculate_percentage (3/4) pos.entry_price then
    (close_commit s now, some (.tierFast, .loss))
  else if rsi < cfg.rsi_oversold ∧ s.sell_very_fast = true ∧
      price ≤ pos.entry_price + calculate_percentage s.very_fast_lose_amt pos.entry_price then
    (close_commit s now, some (.tierVeryFast, .loss))
  else if price ≤ pos.entry_price - calculate_percentage cfg.big_profit_pct pos.entry_price then
    (close_commit s now, some (.bigProfit, .win))
  else if rsi ≤ cfg.rsi_oversold ∧
      price ≤ pos.entry_price - calculate_percentage cfg.min_profit_pct pos.entry_price ∧
      s.lowest_rsi ≤ rsi - 3 then
    ({ close_commit s now with lowest_rsi := 100 }, some (.extremePeak, .win))
  else (s, none)

/-- `RSIStrategy._should_close_long(position, current_price, current_rsi)`.
The first float division of the call (`position.update`, then the trend
computation) divides by `entry_price`, so `entry_price = 0` raises
`ZeroDivisionError`. -/
def should_close_long (cfg : StrategyConfig) (s : StrategyState) (pos : Position)
    (now price rsi : ℚ) :
    Except PyError (StrategyState × Position × Option (CloseReason × CloseResult)) :=
  if pos.entry_price = 0 then .error .zeroDivisionError
  else
    let pos := pos.update price rsi
    let s := if s.highest_rsi < rsi then { s with highest_rsi := rsi } else s
    let hours_held := now - pos.entry_time
    let s := latch_long cfg s pos.entry_price now price hours_held
    let s := ratchet_very_fast s now
    let sr := close_decision_long cfg s pos now price rsi hours_held
    .ok (sr.1, pos, sr.2)

/-- `RSIStrategy._should_close_short(position, current_price, current_rsi)`. -/
def should_close_short (cfg : StrategyConfig) (s : StrategyState) (pos : Position)
    (now price rsi : ℚ) :
    Except PyError (StrategyState × Position × Option (CloseReason × CloseResult)) :=
  if pos.entry_price = 0 then .error .zeroDivisionError
  else
    let pos := pos.update price rsi
    let s := if rsi < s.lowest_rsi then { s with lowest_rsi := rsi } else s
    let hours_held := now - pos.entry_time
    let s := latch_short cfg s pos.entry_price now price hours_held
    let s := ratchet_very_fast s now
    let sr := close_decision_short cfg s pos now price rsi hours_held
    .ok (sr.1, pos, sr.2)

/-! ## Orchestrator entry paths (`src/core/trading_bot.py`)

`_execute_buy` and `_execute_short` call
`self.risk_manager.validate_trade(current_balance=..., position_size=...,
entry_price=..., leverage=self.leverage, stats=self.stats)`, while
`RiskManager.validate_trade(self, current_balance, position_size,
entry_price, stats=None)` has no `leverage` parameter and no `**kwargs`.
Python keyword binding is modelled explicitly: a call binds only when every
keyword names a declared parameter; otherwise it raises `TypeError` before
the callee body runs. -/

/-- Keyword-parameter names involved in the entry-path calls. -/
inductive ParamName where
  | current_balance
  | position_size
  | entry_price
  | stats
  | leverage
deriving DecidableEq, Repr

/-- The non-self parameters declared by `RiskManager.validate_trade`. -/
def validate_trade_params : List ParamName :=
  [.current_balance, .position_size, .entry_price, .stats]

/-- The keyword arguments `_execute_buy` / `_execute_short` pass to
`validate_trade`. -/
def entry_validate_call_kwargs : List ParamName :=
  [.current_balance, .position_size, .entry_price, .leverage, .stats]

/-- Python keyword binding: every keyword must name a declared parameter. -/
def call_binds (params kwargs : List ParamName) : Bool :=
  kwargs.all (fun k => params.contains k)

/-- The slice of `TradingBot` state the entry paths touch. -/
structure BotState where
  current_balance : ℚ
  leverage : ℚ
  is_futures : Bool
  risk_manager : RiskManagerState
  position : Option Position
deriving DecidableEq, Repr

/-- `TradingBot._execute_buy(price, reason)` (simulation mode).  The branch
behind the successful keyword binding is unreachable: `call_binds` is false
for this call, so the `TypeError` is raised before `validate_trade` runs and
before `self.position` is assigned. -/
def execute_buy (bot : BotState) (now price rsi : ℚ) : Except PyError BotState :=
  match calculate_position_size bot.risk_manager bot.current_balance price none
      bot.leverage with
  | .error e => .error e
  | .ok quantity =>
    if call_binds validate_trade_params entry_validate_call_kwargs then
      match validate_trade bot.risk_manager bot.current_balance quantity price true with
      | .error e => .error e
      | .ok (rm', is_valid, _) =>
        if !is_valid then .ok { bot with risk_manager := rm' }
        else
          let pos : Position :=
            { quantity := quantity, entry_price := price, entry_time := now,
              entry_rsi := rsi, current_price := price, current_rsi := rsi }
          let bal :=
            if bot.is_futures then
              bot.current_balance - quantity * price / bot.leverage
            else 0
          .ok { bot with risk_manager := rm', position := some pos,
                         current_balance := bal }
    else .error .typeError

/-- `TradingBot._execute_short(price, reason)` (simulation mode); returns
unchanged when not in Futures mode, mirroring the early `return`. -/
def execute_short (bot : BotState) (now price rsi : ℚ) : Except PyError BotState :=
  if !bot.is_futures then .ok bot
  else
    match calculate_position_size bot.risk_manager bot.current_balance price none
        bot.leverage with
    | .error e => .error e
    | .ok quantity =>
      if call_binds validate_trade_params entry_validate_call_kwargs then
        match validate_trade bot.risk_manager bot.current_balance quantity price true with
        | .error e => .error e
        | .ok (rm', is_valid, _) =>
          if !is_valid then .ok { bot with risk_manager := rm' }
          else
            let pos : Position :=
              { quantity := quantity, entry_price := price, entry_time := now,
                entry_rsi := rsi, current_price := price, current_rsi := rsi }
            .ok { bot with risk_manager := rm', position := some pos,
                           current_balance :=
                             bot.current_balance - quantity * price / bot.leverage }
      else .error .typeError

/-! ## Tick sequences -/

/-- Repeated `_update_drawdown` calls over a list of balances. -/
def run_drawdown_updates : RiskManagerState → List ℚ → Except PyError RiskManagerState
  | rm, [] => .ok rm
  | rm, b :: bs =>
    match update_drawdown rm b with
    | .error e => .error e
    | .ok rm' => run_drawdown_updates rm' bs

/-- One tick of input to the entry signal engine. -/
structure EntryTickInput where
  now : ℚ
  price : ℚ
  rsi : ℚ
  in_position : Bool
deriving DecidableEq, Repr

/-- A tick evaluated on the oversold/LONG or the overbought/SHORT side. -/
inductive EntryTick where
  | buyTick (t : EntryTickInput)
  | shortTick (t : EntryTickInput)
deriving DecidableEq, Repr

/-- The state transition of one entry-engine tick. -/
def entry_step (cfg : StrategyConfig) (s : StrategyState) : EntryTick → StrategyState
  | .buyTick t => (should_buy cfg s t.now t.price t.rsi t.in_position).1
  | .shortTick t => (should_short cfg s t.now t.price t.rsi t.in_position).1

/-- A sequence of entry-engine ticks. -/
def run_entry_ticks (cfg : StrategyConfig) (s : StrategyState)
    (ts : List EntryTick) : StrategyState :=
  ts.foldl (entry_step cfg) s

/-- One tick of input to the exit state machine. -/
structure CloseTickInput where
  now : ℚ
  price : ℚ
  rsi : ℚ
deriving DecidableEq, Repr

/-- Per-tick evaluation of an open LONG position until the first close
signal; the boolean reports whether the position closed. -/
def run_close_long (cfg : StrategyConfig) :
    StrategyState → Position → List CloseTickInput →
    Except PyError (StrategyState × Position × Bool)
  | s, pos, [] => .ok (s, pos, false)
  | s, pos, t :: ts =>
    match should_close_long cfg s pos t.now t.price t.rsi with
    | .error e => .error e
    | .ok (s', pos', some _) => .ok (s', pos', true)
    | .ok (s', pos', none) => run_close_long cfg s' pos' ts

/-- Per-tick evaluation of an open SHORT position until the first close
signal. -/
def run_close_short (cfg : StrategyConfig) :
    StrategyState → Position → List CloseTickInput →
    Except PyError (StrategyState × Position × Bool)
  | s, pos, [] => .ok (s, pos, false)
  | s, pos, t :: ts =>
    match should_close_short cfg s pos t.now t.price t.rsi with
    | .error e => .error e
    | .ok (s', pos', some _) => .ok (s', pos', true)
    | .ok (s', pos', none) => run_close_short cfg s' pos' ts

/-! ## Indicator lemmas -/

/-- Zipped self-differences of two constant lists are zero. -/
lemma zipWith_sub_replicate (m n : ℕ) (c : ℚ) :
    List.zipWith (fun a b => b - a) (List.replicate m c) (List.replicate n c) =
      List.replicate (min m n) (0 : ℚ) := by
  induction m generalizing n with
  | zero => simp
  | succ m ih =>
    cases n with
    | zero => simp
    | succ n =>
      simp only [List.replicate_succ, List.zipWith_cons_cons, sub_self, ih,
        Nat.succ_min_succ]

/-- All consecutive differences of a constant series are zero. -/
lemma deltasOf_replicate (k : ℕ) (c : ℚ) :
    deltasOf (List.replicate k c) = List.replicate (k - 1) (0 : ℚ) := by
  cases k with
  | zero => rfl
  | succ n =>
    have ht : (List.replicate (n + 1) c).tail = List.replicate n c := by
      simp [List.replicate_succ]
    rw [deltasOf, ht, zipWith_sub_replicate]
    simp

/-- A list of nonnegative rationals summing to zero is all zeros. -/
lemma all_zero_of_sum_nonneg_eq_zero (l : List ℚ)
    (h : ∀ x ∈ l, 0 ≤ x) (hs : l.sum = 0) : ∀ x ∈ l, x = 0 := by
  intro x hx
  by_contra hne
  have hpos : 0 < x := lt_of_le_of_ne (h x hx) (Ne.symm hne)
  have hle : x ≤ l.sum := List.single_le_sum h x hx
  rw [hs] at hle
  linarith

/-- Claim C1: contrary to the spec's flat-market rule (`avg_gain == 0 and
avg_loss == 0 → value = 50`), `calculate_rsi` on a constant price series of
at least `period + 1` identical prices returns the not-ready sentinel
`None`: all deltas are zero, pandas evaluates `rs = 0/0 = NaN`, and the NaN
is converted to `None`. -/
theorem rsi_constant_series_none (period k : ℕ) (c : ℚ)
    (hp : 1 ≤ period) (hk : period + 1 ≤ k) :
    calculate_rsi (List.replicate k c) period = none := by
  have hlen : ¬((List.replicate k c).length < period + 1) := by
    simpa using not_lt.mpr hk
  have hz : ∀ d ∈ lastWindow period (deltasOf (List.replicate k c)), d = (0 : ℚ) := by
    intro d hd
    have hmem : d ∈ deltasOf (List.replicate k c) := List.drop_subset _ _ hd
    rw [deltasOf_replicate] at hmem
    exact List.eq_of_mem_replicate hmem
  have hg : (gainsOf (lastWindow period (deltasOf (List.replicate k c)))).sum = 0 := by
    apply List.sum_eq_zero
    intro x hx
    obtain ⟨d, hd, rfl⟩ := List.mem_map.mp hx
    rw [hz d hd]
    simp
  have hl : (lossesOf (lastWindow period (deltasOf (List.replicate k c)))).sum = 0 := by
    apply List.sum_eq_zero
    intro x hx
    obtain ⟨d, hd, rfl⟩ := List.mem_map.mp hx
    rw [hz d hd]
    simp
  simp [calculate_rsi, hlen, hg, hl]

/-- Witness for C1: the spec's own scenario, `period = 14` and 15 identical
prices at 100, evaluates to `None`. -/
theorem rsi_constant_series_none_witness :
    (1 ≤ 14 ∧ 14 + 1 ≤ 15) ∧
      calculate_rsi (List.replicate 15 (100 : ℚ)) 14 = none :=
  ⟨⟨by decide, by decide⟩, rsi_constant_series_none 14 15 100 (by decide) (by decide)⟩

/-- Counterexample for C6: with `period = 1` a flat two-price list has
exactly `period + 1` elements, yet `calculate_rsi` returns `None` (the
`0/0 = NaN` path), so readiness at `N+1` samples fails as stated. -/
theorem rsi_flat_at_ready_length_counterexample :
    ([(100 : ℚ), 100] : List ℚ).length = 1 + 1 ∧
      calculate_rsi [(100 : ℚ), 100] 1 = none := by
  constructor
  · rfl
  · norm_num [calculate_rsi, deltasOf, lastWindow, gainsOf, lossesOf]

/-- Claim C6 (amended): `calculate_rsi` returns `None` whenever the list has
fewer than `period + 1` elements, and at exactly `period + 1` elements it
returns a value provided the `period` deltas are not all zero (an all-zero
window hits the `0/0 = NaN` path and yields `None`, see C1). -/
theorem rsi_ready_threshold (period : ℕ) (prices : List ℚ) (hp : 1 ≤ period) :
    (prices.length < period + 1 → calculate_rsi prices period = none) ∧
    (prices.length = period + 1 →
      (∃ d ∈ lastWindow period (deltasOf prices), d ≠ 0) →
      (calculate_rsi prices period).isSome = true) := by
  constructor
  · intro hlt
    simp [calculate_rsi, hlt]
  · intro hlen hd
    obtain ⟨d, hdw, hdne⟩ := hd
    have hnlt : ¬(prices.length < period + 1) := by omega
    have hper : ((period : ℚ)) ≠ 0 := by
      exact_mod_cast Nat.one_le_iff_ne_zero.mp hp
    by_cases hC :
        (gainsOf (lastWindow period (deltasOf prices))).sum / (period : ℚ) = 0 ∧
        (lossesOf (lastWindow period (deltasOf prices))).sum / (period : ℚ) = 0
    · exfalso
      have hgs : (gainsOf (lastWindow period (deltasOf prices))).sum = 0 := by
        rcases div_eq_zero_iff.mp hC.1 with h | h
        · exact h
        · exact absurd h hper
      have hls : (lossesOf (lastWindow period (deltasOf prices))).sum = 0 := by
        rcases div_eq_zero_iff.mp hC.2 with h | h
        · exact h
        · exact absurd h hper
      have hgain : max d 0 = 0 := by
        refine all_zero_of_sum_nonneg_eq_zero _ ?_ hgs (max d 0) ?_
        · intro x hx
          obtain ⟨e, _, rfl⟩ := List.mem_map.mp hx
          exact le_max_right e 0
        · exact List.mem_map.mpr ⟨d, hdw, rfl⟩
      have hloss : max (-d) 0 = 0 := by
        refine all_zero_of_sum_nonneg_eq_zero _ ?_ hls (max (-d) 0) ?_
        · intro x hx
          obtain ⟨e, _, rfl⟩ := List.mem_map.mp hx
          exact le_max_right (-e) 0
        · exact List.mem_map.mpr ⟨d, hdw, rfl⟩
      have h1 : d ≤ 0 := by
        have := le_max_left d (0 : ℚ)
        rw [hgain] at this
        exact this
      have h2 : 0 ≤ d := by
        have := le_max_left (-d) (0 : ℚ)
        rw [hloss] at this
        linarith
      exact hdne (le_antisymm h1 h2)
    · simp only [calculate_rsi, hnlt, if_false]
      rw [if_neg hC]
      split
      · rfl
      · rfl

/-- Witness for C6: one non-flat delta at exactly `period + 1 = 2` prices
makes the indicator ready. -/
theorem rsi_ready_threshold_witness :
    (calculate_rsi [(100 : ℚ), 101] 1).isSome = true :=
  (rsi_ready_threshold 1 [(100 : ℚ), 101] (by decide)).2 rfl
    ⟨1, by norm_num [lastWindow, deltasOf], by norm_num⟩

/-! ## Risk manager lemmas -/

/-- One `_update_drawdown` call from a positive peak: the new peak is
`max(peak, balance)` and the new drawdown is computed from it. -/
lemma update_drawdown_step (rm : RiskManagerState) (b : ℚ)
    (hpk : 0 < rm.peak_balance) :
    update_drawdown rm b =
      .ok { rm with
            peak_balance := max rm.peak_balance b,
            current_drawdown_pct :=
              (max rm.peak_balance b - b) / max rm.peak_balance b * 100 } := by
  unfold update_drawdown
  by_cases hlt : rm.peak_balance < b
  · rw [if_pos hlt]
    simp [max_eq_right hlt.le]
  · rw [if_neg hlt, if_neg (ne_of_gt hpk)]
    simp [max_eq_left (not_lt.mp hlt)]

/-- Invariants preserved by one `_update_drawdown` call. -/
lemma update_drawdown_invariants (rm : RiskManagerState) (b : ℚ)
    (hpk : 0 < rm.peak_balance) (rm' : RiskManagerState)
    (h : update_drawdown rm b = .ok rm') :
    0 < rm'.peak_balance ∧ rm.peak_balance ≤ rm'.peak_balance ∧
      0 ≤ rm'.current_drawdown_pct := by
  rw [update_drawdown_step rm b hpk] at h
  cases h
  refine ⟨lt_of_lt_of_le hpk (le_max_left _ _), le_max_left _ _, ?_⟩
  have hmax : 0 < max rm.peak_balance b := lt_of_lt_of_le hpk (le_max_left _ _)
  have hsub : 0 ≤ max rm.peak_balance b - b := sub_nonneg.mpr (le_max_right _ _)
  have := div_nonneg hsub hmax.le
  simpa using mul_nonneg this (by norm_num : (0 : ℚ) ≤ 100)

/-- Invariants preserved along any sequence of `_update_drawdown` calls. -/
lemma run_drawdown_invariants (bs : List ℚ) :
    ∀ (rm : RiskManagerState), 0 < rm.peak_balance →
      0 ≤ rm.current_drawdown_pct →
      ∃ rm', run_drawdown_updates rm bs = .ok rm' ∧
        rm.peak_balance ≤ rm'.peak_balance ∧ 0 < rm'.peak_balance ∧
        0 ≤ rm'.current_drawdown_pct := by
  induction bs with
  | nil =>
    intro rm hpk hdd
    exact ⟨rm, rfl, le_refl _, hpk, hdd⟩
  | cons b bs ih =>
    intro rm hpk hdd
    have hstep := update_drawdown_step rm b hpk
    obtain ⟨hpk1, hmono1, hdd1⟩ := update_drawdown_invariants rm b hpk _ hstep
    obtain ⟨rm', hrun, hmono2, hpk2, hdd2⟩ := ih _ hpk1 hdd1
    refine ⟨rm', ?_, le_trans hmono1 hmono2, hpk2, hdd2⟩
    simp only [run_drawdown_updates, hstep]
    exact hrun

/-- Claim C7: starting from a positive peak with nonnegative drawdown, every
`_update_drawdown` call sets `peak = max(peak, balance)` and
`drawdown_pct = (peak - balance)/peak * 100`, and along any sequence of
balance updates `peak_balance` is non-decreasing and `current_drawdown_pct`
stays nonnegative. -/
theorem drawdown_peak_monotone_nonneg (rm : RiskManagerState)
    (hpk : 0 < rm.peak_balance) (hdd : 0 ≤ rm.current_drawdown_pct) :
    (∀ b, update_drawdown rm b =
       .ok { rm with
             peak_balance := max rm.peak_balance b,
             current_drawdown_pct :=
               (max rm.peak_balance b - b) / max rm.peak_balance b * 100 }) ∧
    (∀ bs, ∃ rm', run_drawdown_updates rm bs = .ok rm' ∧
       rm.peak_balance ≤ rm'.peak_balance ∧ 0 ≤ rm'.current_drawdown_pct) := by
  constructor
  · intro b
    exact update_drawdown_step rm b hpk
  · intro bs
    obtain ⟨rm', hrun, hmono, _, hnn⟩ := run_drawdown_invariants bs rm hpk hdd
    exact ⟨rm', hrun, hmono, hnn⟩

/-- Witness for C7: the spec's scenario, peak 1000 and balance 900, yields
peak `max 1000 900 = 1000` and drawdown `(1000-900)/1000*100 = 10`. -/
theorem drawdown_peak_monotone_nonneg_witness :
    update_drawdown (RiskManagerState.init 2 10 true 1000) 900 =
      .ok { RiskManagerState.init 2 10 true 1000 with
            peak_balance :=
              max (RiskManagerState.init 2 10 true 1000).peak_balance 900,
            current_drawdown_pct :=
              (max (RiskManagerState.init 2 10 true 1000).peak_balance 900 - 900) /
                max (RiskManagerState.init 2 10 true 1000).peak_balance 900 * 100 } :=
  (drawdown_peak_monotone_nonneg (RiskManagerState.init 2 10 true 1000)
    (by norm_num [RiskManagerState.init]) (le_refl 0)).1 900

/-- Counterexample for C3: a drawdown-limit failure is not state-free.  With
peak 1000, stored drawdown 0 and limit 10%, `validate_trade` at balance 900
returns the drawdown failure but has already overwritten
`current_drawdown_pct` with 10 via the embedded `_update_drawdown` call. -/
theorem validate_trade_failure_mutates_counterexample :
    validate_trade (RiskManagerState.init 2 10 true 1000) 900 (1/10) 100 true =
      .ok ({ RiskManagerState.init 2 10 true 1000 with current_drawdown_pct := 10 },
           false, .drawdownLimit) ∧
    ({ RiskManagerState.init 2 10 true 1000 with current_drawdown_pct := 10 } :
        RiskManagerState) ≠ RiskManagerState.init 2 10 true 1000 := by
  constructor
  · norm_num [validate_trade, update_drawdown, RiskManagerState.init]
  · intro h
    have := congrArg RiskManagerState.current_drawdown_pct h
    norm_num [RiskManagerState.init] at this

/-- Claim C3 (amended): failures for insufficient balance or oversized
position leave the risk state unchanged; a drawdown-limit failure leaves
`peak_balance` unchanged (whenever `max_drawdown_pct` is positive) but
overwrites `current_drawdown_pct` before returning the failure. -/
theorem validate_trade_failure_state (rm : RiskManagerState) (b sz ep : ℚ)
    (stats : Bool) (rm' : RiskManagerState) (v : ValidationVerdict)
    (h : validate_trade rm b sz ep stats = .ok (rm', false, v)) :
    ((v = .insufficientBalance ∨ v = .oversizedPosition) → rm' = rm) ∧
    (v = .drawdownLimit → 0 < rm.max_drawdown_pct →
      rm'.peak_balance = rm.peak_balance) := by
  unfold validate_trade at h
  by_cases h0 : b ≤ 0
  · rw [if_pos h0] at h
    cases h
    exact ⟨fun _ => rfl, fun hv => nomatch hv⟩
  · rw [if_neg h0] at h
    dsimp only at h
    by_cases h1 : b * (101 / 100) < sz * ep
    · rw [if_pos h1] at h
      cases h
      exact ⟨fun _ => rfl, fun hv => nomatch hv⟩
    · rw [if_neg h1] at h
      by_cases h2 : stats = true
      · rw [if_pos h2] at h
        rcases hud : update_drawdown rm b with e | rm''
        · rw [hud] at h
          cases h
        · rw [hud] at h
          dsimp only at h
          by_cases h3 : rm.max_drawdown_pct ≤ rm''.current_drawdown_pct
          · rw [if_pos h3] at h
            cases h
            refine ⟨fun hv => ?_, fun _ hpos => ?_⟩
            · rcases hv with hv | hv <;> exact nomatch hv
            unfold update_drawdown at hud
            split at hud
            · cases hud
              simp at h3
              linarith
            · split at hud
              · cases hud
              · cases hud
                rfl
          · rw [if_neg h3] at h
            cases h
      · rw [if_neg h2] at h
        cases h

/-- Witness for C3: the concrete drawdown-limit failure of the
counterexample has an unchanged `peak_balance`. -/
theorem validate_trade_failure_state_witness :
    ({ RiskManagerState.init 2 10 true 1000 with current_drawdown_pct := 10 } :
        RiskManagerState).peak_balance =
      (RiskManagerState.init 2 10 true 1000).peak_balance :=
  (validate_trade_failure_state (RiskManagerState.init 2 10 true 1000) 900 (1/10)
      100 true _ .drawdownLimit
      (by norm_num [validate_trade, update_drawdown, RiskManagerState.init])).2
    rfl (by norm_num [RiskManagerState.init])

/-- Counterexample for C10: `validate_trade` on a manager with
`initial_balance = 0` and `current_balance = 0` (and `stats` supplied) does
NOT raise: the insufficient-balance check returns a failure before
`_update_drawdown` is ever reached. -/
theorem validate_trade_zero_balance_no_raise_counterexample :
    validate_trade (RiskManagerState.init 2 10 true 0) 0 1 1 true =
      .ok (RiskManagerState.init 2 10 true 0, false, .insufficientBalance) := by
  norm_num [validate_trade, RiskManagerState.init]

/-- Claim C10 (amended): with `initial_balance = 0`, `get_risk_status` at any
`current_balance ≤ 0` raises `ZeroDivisionError` through the unguarded
division in `_update_drawdown`, while `validate_trade` never reaches that
division for such balances: its insufficient-balance check returns first. -/
theorem zero_initial_balance_division (mr md : ℚ) (dyn : Bool) (b : ℚ)
    (hb : b ≤ 0) :
    get_risk_status (RiskManagerState.init mr md dyn 0) b =
      .error .zeroDivisionError ∧
    ∀ (sz ep : ℚ) (stats : Bool),
      validate_trade (RiskManagerState.init mr md dyn 0) b sz ep stats =
        .ok (RiskManagerState.init mr md dyn 0, false, .insufficientBalance) := by
  constructor
  · simp [get_risk_status, update_drawdown, RiskManagerState.init, hb, not_lt]
  · intro sz ep stats
    simp [validate_trade, hb]

/-- Witness for C10: the concrete zero-balance calls. -/
theorem zero_initial_balance_division_witness :
    get_risk_status (RiskManagerState.init 2 10 true 0) 0 =
      .error .zeroDivisionError ∧
    validate_trade (RiskManagerState.init 2 10 true 0) 0 1 1 true =
      .ok (RiskManagerState.init 2 10 true 0, false, .insufficientBalance) :=
  ⟨(zero_initial_balance_division 2 10 true 0 (le_refl 0)).1,
   (zero_initial_balance_division 2 10 true 0 (le_refl 0)).2 1 1 true⟩

/-! ## Entry-path TypeError -/

/-- With a nonzero entry price, `calculate_position_size` (no stop loss)
always succeeds. -/
lemma calculate_position_size_ok (rm : RiskManagerState) (bal price lev : ℚ)
    (hp : price ≠ 0) :
    ∃ q, calculate_position_size rm bal price none lev = .ok q := by
  unfold calculate_position_size
  by_cases hd : rm.dynamic_position_sizing
  · simp [hd, hp]
  · simp [hd, hp]

/-- The `leverage` keyword of the entry-path call matches no parameter of
`validate_trade`, so the Python keyword binding fails. -/
lemma leverage_kwarg_rejected :
    call_binds validate_trade_params entry_validate_call_kwargs = false := by
  decide

/-- Claim C2: every `_execute_buy` call (and every `_execute_short` call in
Futures mode) raises `TypeError` at the `validate_trade(...)` call site
because of the unexpected `leverage` keyword argument, and consequently no
position is ever opened through these paths; out of Futures mode
`_execute_short` returns early and touches nothing. -/
theorem entry_validate_leverage_typeError (bot : BotState) (now price rsi : ℚ)
    (hp : price ≠ 0) :
    execute_buy bot now price rsi = .error .typeError ∧
    (bot.is_futures = true → execute_short bot now price rsi = .error .typeError) ∧
    (∀ bot', execute_short bot now price rsi = .ok bot' →
      bot'.position = bot.position) := by
  obtain ⟨q, hq⟩ :=
    calculate_position_size_ok bot.risk_manager bot.current_balance price
      bot.leverage hp
  refine ⟨?_, ?_, ?_⟩
  · simp [execute_buy, hq, leverage_kwarg_rejected]
  · intro hf
    simp [execute_short, hf, hq, leverage_kwarg_rejected]
  · intro bot' hok
    by_cases hf : bot.is_futures
    · simp [execute_short, hf, hq, leverage_kwarg_rejected] at hok
    · simp [execute_short, hf] at hok
      rw [← hok]

/-- Witness for C2: a concrete Futures bot at price 100. -/
theorem entry_validate_leverage_typeError_witness :
    execute_buy ⟨1000, 5, true, RiskManagerState.init 2 10 true 1000, none⟩
        0 100 50 = .error .typeError ∧
    execute_short ⟨1000, 5, true, RiskManagerState.init 2 10 true 1000, none⟩
        0 100 50 = .error .typeError :=
  ⟨(entry_validate_leverage_typeError
      ⟨1000, 5, true, RiskManagerState.init 2 10 true 1000, none⟩ 0 100 50
      (by norm_num)).1,
   (entry_validate_leverage_typeError
      ⟨1000, 5, true, RiskManagerState.init 2 10 true 1000, none⟩ 0 100 50
      (by norm_num)).2.1 rfl⟩

/-! ## Position update -/

/-- Claim C9: `Position.update` computes
`unrealized_pnl = (current_price - entry_price) * quantity` and
`unrealized_pnl_percentage = (current_price/entry_price - 1) * 100` with no
dependence on any side notion (the dataclass has no `side` field), so a
price rise above entry yields a POSITIVE `unrealized_pnl` even for the
SHORT exit logic, whose max-hold "loss" branch (`unrealized_pnl < 0`)
therefore never fires on a rising price. -/
theorem position_update_side_independent (p : Position) (price rsi : ℚ) :
    ((p.update price rsi).unrealized_pnl = (price - p.entry_price) * p.quantity) ∧
    ((p.update price rsi).unrealized_pnl_percentage =
      (price / p.entry_price - 1) * 100) ∧
    (0 < p.quantity → p.entry_price < price →
      0 < (p.update price rsi).unrealized_pnl) ∧
    (0 < p.quantity → p.entry_price < price →
      ∀ (cfg : StrategyConfig) (s : StrategyState) (now : ℚ) out,
        should_close_short cfg s p now price rsi = .ok out →
        out.2.2 ≠ some (.maxHoldLoss, .loss)) := by
  refine ⟨rfl, rfl, ?_, ?_⟩
  · intro hq hlt
    exact mul_pos (sub_pos.mpr hlt) hq
  · intro hq hlt cfg s now out hok
    have hpnl : 0 < (p.update price rsi).unrealized_pnl :=
      mul_pos (sub_pos.mpr hlt) hq
    unfold should_close_short at hok
    by_cases he : p.entry_price = 0
    · rw [if_pos he] at hok
      cases hok
    · rw [if_neg he] at hok
      dsimp only at hok
      cases hok
      dsimp only
      unfold close_decision_short
      rw [if_neg (fun hc => absurd hc.2 (not_lt.mpr hpnl.le))]
      repeat' split
      all_goals simp

/-- Witness for C9: quantity 1/2, entry 2000, price 2060 gives a strictly
positive P&L. -/
theorem position_update_side_independent_witness :
    0 < ((⟨1/2, 2000, 0, 50, 0, 0, 0, 0⟩ : Position).update 2060 50).unrealized_pnl :=
  (position_update_side_independent ⟨1/2, 2000, 0, 50, 0, 0, 0, 0⟩ 2060 50).2.2.1
    (by norm_num) (by norm_num)

/-! ## Exit-flag lemmas -/

/-- Tier 1 (LONG) sets only `sell_at_buyprice`, and only from false to
true. -/
lemma latch_tier1_long_flags (cfg : StrategyConfig) (s : StrategyState)
    (entry price hours_held : ℚ) :
    (s.sell_at_buyprice = true →
      (latch_tier1_long cfg s entry price hours_held).sell_at_buyprice = true) ∧
    (latch_tier1_long cfg s entry price hours_held).sell_fast = s.sell_fast ∧
    (latch_tier1_long cfg s entry price hours_held).sell_very_fast =
      s.sell_very_fast := by
  unfold latch_tier1_long
  split <;> simp

/-- Tier 2 (LONG) sets only `sell_fast`. -/
lemma latch_tier2_long_flags (cfg : StrategyConfig) (s : StrategyState)
    (entry price hours_held : ℚ) :
    (latch_tier2_long cfg s entry price hours_held).sell_at_buyprice =
      s.sell_at_buyprice ∧
    (s.sell_fast = true →
      (latch_tier2_long cfg s entry price hours_held).sell_fast = true) ∧
    (latch_tier2_long cfg s entry price hours_held).sell_very_fast =
      s.sell_very_fast := by
  unfold latch_tier2_long
  split <;> simp

/-- Tier 3 (LONG) sets only `sell_very_fast` (plus its timestamp and
tolerance). -/
lemma latch_tier3_long_flags (cfg : StrategyConfig) (s : StrategyState)
    (entry now price hours_held : ℚ) :
    (latch_tier3_long cfg s entry now price hours_held).sell_at_buyprice =
      s.sell_at_buyprice ∧
    (latch_tier3_long cfg s entry now price hours_held).sell_fast =
      s.sell_fast ∧
    (s.sell_very_fast = true →
      (latch_tier3_long cfg s entry now price hours_held).sell_very_fast =
        true) := by
  unfold latch_tier3_long
  split <;> simp

/-- The latching blocks only ever turn LONG-side flags on. -/
lemma latch_long_mono (cfg : StrategyConfig) (s : StrategyState)
    (entry now price hours_held : ℚ) :
    (s.sell_at_buyprice = true →
      (latch_long cfg s entry now price hours_held).sell_at_buyprice = true) ∧
    (s.sell_fast = true →
      (latch_long cfg s entry now price hours_held).sell_fast = true) ∧
    (s.sell_very_fast = true →
      (latch_long cfg s entry now price hours_held).sell_very_fast = true) := by
  obtain ⟨a1, a2, a3⟩ := latch_tier1_long_flags cfg s entry price hours_held
  obtain ⟨b1, b2, b3⟩ := latch_tier2_long_flags cfg
    (latch_tier1_long cfg s entry price hours_held) entry price hours_held
  obtain ⟨c1, c2, c3⟩ := latch_tier3_long_flags cfg
    (latch_tier2_long cfg (latch_tier1_long cfg s entry price hours_held)
      entry price hours_held) entry now price hours_held
  unfold latch_long
  exact ⟨fun hb => by rw [c1, b1]; exact a1 hb,
         fun hb => by rw [c2]; exact b2 (a2 ▸ hb),
         fun hb => c3 (b3 ▸ a3 ▸ hb)⟩

/-- Tier 1 (SHORT) sets only `sell_at_buyprice`. -/
lemma latch_tier1_short_flags (cfg : StrategyConfig) (s : StrategyState)
    (entry price hours_held : ℚ) :
    (s.sell_at_buyprice = true →
      (latch_tier1_short cfg s entry price hours_held).sell_at_buyprice = true) ∧
    (latch_tier1_short cfg s entry price hours_held).sell_fast = s.sell_fast ∧
    (latch_tier1_short cfg s entry price hours_held).sell_very_fast =
      s.sell_very_fast := by
  unfold latch_tier1_short
  split <;> simp

/-- Tier 2 (SHORT) sets only `sell_fast`. -/
lemma latch_tier2_short_flags (cfg : StrategyConfig) (s : StrategyState)
    (entry price hours_held : ℚ) :
    (latch_tier2_short cfg s entry price hours_held).sell_at_buyprice =
      s.sell_at_buyprice ∧
    (s.sell_fast = true →
      (latch_tier2_short cfg s entry price hours_held).sell_fast = true) ∧
    (latch_tier2_short cfg s entry price hours_held).sell_very_fast =
      s.sell_very_fast := by
  unfold latch_tier2_short
  split <;> simp

/-- Tier 3 (SHORT) sets only `sell_very_fast` (plus its timestamp and
tolerance). -/
lemma latch_tier3_short_flags (cfg : StrategyConfig) (s : StrategyState)
    (entry now price hours_held : ℚ) :
    (latch_tier3_short cfg s entry now price hours_held).sell_at_buyprice =
      s.sell_at_buyprice ∧
    (latch_tier3_short cfg s entry now price hours_held).sell_fast =
      s.sell_fast ∧
    (s.sell_very_fast = true →
      (latch_tier3_short cfg s entry now price hours_held).sell_very_fast =
        true) := by
  unfold latch_tier3_short
  split <;> simp

/-- The latching blocks only ever turn SHORT-side flags on. -/
lemma latch_short_mono (cfg : StrategyConfig) (s : StrategyState)
    (entry now price hours_held : ℚ) :
    (s.sell_at_buyprice = true →
      (latch_short cfg s entry now price hours_held).sell_at_buyprice = true) ∧
    (s.sell_fast = true →
      (latch_short cfg s entry now price hours_held).sell_fast = true) ∧
    (s.sell_very_fast = true →
      (latch_short cfg s entry now price hours_held).sell_very_fast = true) := by
  obtain ⟨a1, a2, a3⟩ := latch_tier1_short_flags cfg s entry price hours_held
  obtain ⟨b1, b2, b3⟩ := latch_tier2_short_flags cfg
    (latch_tier1_short cfg s entry price hours_held) entry price hours_held
  obtain ⟨c1, c2, c3⟩ := latch_tier3_short_flags cfg
    (latch_tier2_short cfg (latch_tier1_short cfg s entry price hours_held)
      entry price hours_held) entry now price hours_held
  unfold latch_short
  exact ⟨fun hb => by rw [c1, b1]; exact a1 hb,
         fun hb => by rw [c2]; exact b2 (a2 ▸ hb),
         fun hb => c3 (b3 ▸ a3 ▸ hb)⟩

/-- The very-fast ratchet never touches the three flags. -/
lemma ratchet_very_fast_flags (s : StrategyState) (now : ℚ) :
    (ratchet_very_fast s now).sell_at_buyprice = s.sell_at_buyprice ∧
    (ratchet_very_fast s now).sell_fast = s.sell_fast ∧
    (ratchet_very_fast s now).sell_very_fast = s.sell_very_fast := by
  refine ⟨?_, ?_, ?_⟩ <;>
    (unfold ratchet_very_fast; repeat' split) <;> simp_all

/-- A no-close verdict of the LONG decision ladder leaves the state alone. -/
lemma close_decision_long_none (cfg : StrategyConfig) (s : StrategyState)
    (pos : Position) (now price rsi hours_held : ℚ) (s' : StrategyState)
    (h : close_decision_long cfg s pos now price rsi hours_held = (s', none)) :
    s' = s := by
  unfold close_decision_long at h
  repeat' split at h
  all_goals injection h with h1 h2
  all_goals try exact h1.symm
  all_goals cases h2

/-- Every close verdict of the LONG decision ladder has all flags reset. -/
lemma close_decision_long_some_flags (cfg : StrategyConfig) (s : StrategyState)
    (pos : Position) (now price rsi hours_held : ℚ) (s' : StrategyState)
    (r : CloseReason × CloseResult)
    (h : close_decision_long cfg s pos now price rsi hours_held = (s', some r)) :
    s'.sell_at_buyprice = false ∧ s'.sell_fast = false ∧
      s'.sell_very_fast = false := by
  unfold close_decision_long at h
  repeat' split at h
  all_goals injection h with h1 h2
  all_goals try cases h2
  all_goals rw [← h1]
  all_goals simp [close_commit, reset_sell_flags]

/-- A no-close verdict of the SHORT decision ladder leaves the state alone. -/
lemma close_decision_short_none (cfg : StrategyConfig) (s : StrategyState)
    (pos : Position) (now price rsi hours_held : ℚ) (s' : StrategyState)
    (h : close_decision_short cfg s pos now price rsi hours_held = (s', none)) :
    s' = s := by
  unfold close_decision_short at h
  repeat' split at h
  all_goals injection h with h1 h2
  all_goals try exact h1.symm
  all_goals cases h2

/-- Every close verdict of the SHORT decision ladder has all flags reset. -/
lemma close_decision_short_some_flags (cfg : StrategyConfig) (s : StrategyState)
    (pos : Position) (now price rsi hours_held : ℚ) (s' : StrategyState)
    (r : CloseReason × CloseResult)
    (h : close_decision_short cfg s pos now price rsi hours_held = (s', some r)) :
    s'.sell_at_buyprice = false ∧ s'.sell_fast = false ∧
      s'.sell_very_fast = false := by
  unfold close_decision_short at h
  repeat' split at h
  all_goals injection h with h1 h2
  all_goals try cases h2
  all_goals rw [← h1]
  all_goals simp [close_commit, reset_sell_flags]

/-- One LONG exit tick: flags are monotone when no close fires, and all
reset when a close fires. -/
lemma should_close_long_flags (cfg : StrategyConfig) (s : StrategyState)
    (pos : Position) (now price rsi : ℚ) (s' : StrategyState) (pos' : Position)
    (res : Option (CloseReason × CloseResult))
    (h : should_close_long cfg s pos now price rsi = .ok (s', pos', res)) :
    (res = none →
      (s.sell_at_buyprice = true → s'.sell_at_buyprice = true) ∧
      (s.sell_fast = true → s'.sell_fast = true) ∧
      (s.sell_very_fast = true → s'.sell_very_fast = true)) ∧
    (∀ r, res = some r →
      s'.sell_at_buyprice = false ∧ s'.sell_fast = false ∧
        s'.sell_very_fast = false) := by
  unfold should_close_long at h
  by_cases he : pos.entry_price = 0
  · rw [if_pos he] at h
    cases h
  · rw [if_neg he] at h
    dsimp only at h
    cases h
    set s1 := if s.highest_rsi < rsi then { s with highest_rsi := rsi } else s with hs1
    have hflags1 : s1.sell_at_buyprice = s.sell_at_buyprice ∧
        s1.sell_fast = s.sell_fast ∧ s1.sell_very_fast = s.sell_very_fast := by
      rw [hs1]
      split <;> simp
    set s2 := latch_long cfg s1 (pos.update price rsi).entry_price now price
      (now - (pos.update price rsi).entry_time) with hs2
    set s3 := ratchet_very_fast s2 now with hs3
    have hflags3 : (s.sell_at_buyprice = true → s3.sell_at_buyprice = true) ∧
        (s.sell_fast = true → s3.sell_fast = true) ∧
        (s.sell_very_fast = true → s3.sell_very_fast = true) := by
      obtain ⟨r1, r2, r3⟩ := ratchet_very_fast_flags s2 now
      obtain ⟨m1, m2, m3⟩ := latch_long_mono cfg s1 (pos.update price rsi).entry_price
        now price (now - (pos.update price rsi).entry_time)
      rw [hs3]
      exact ⟨fun hb => by rw [r1]; exact m1 (hflags1.1.trans hb),
             fun hb => by rw [r2]; exact m2 (hflags1.2.1.trans hb),
             fun hb => by rw [r3]; exact m3 (hflags1.2.2.trans hb)⟩
    constructor
    · intro hres
      have hpair : close_decision_long cfg s3 (pos.update price rsi) now price rsi
          (now - (pos.update price rsi).entry_time) =
          ((close_decision_long cfg s3 (pos.update price rsi) now price rsi
            (now - (pos.update price rsi).entry_time)).1, none) := by
        rw [← hres]
      have := close_decision_long_none cfg s3 (pos.update price rsi) now price rsi
        (now - (pos.update price rsi).entry_time) _ hpair
      rw [this]
      exact hflags3
    · intro r hres
      have hpair : close_decision_long cfg s3 (pos.update price rsi) now price rsi
          (now - (pos.update price rsi).entry_time) =
          ((close_decision_long cfg s3 (pos.update price rsi) now price rsi
            (now - (pos.update price rsi).entry_time)).1, some r) := by
        rw [← hres]
      exact close_decision_long_some_flags cfg s3 (pos.update price rsi) now price
        rsi (now - (pos.update price rsi).entry_time) _ r hpair

/-- One SHORT exit tick: flags are monotone when no close fires, and all
reset when a close fires. -/
lemma should_close_short_flags (cfg : StrategyConfig) (s : StrategyState)
    (pos : Position) (now price rsi : ℚ) (s' : StrategyState) (pos' : Position)
    (res : Option (CloseReason × CloseResult))
    (h : should_close_short cfg s pos now price rsi = .ok (s', pos', res)) :
    (res = none →
      (s.sell_at_buyprice = true → s'.sell_at_buyprice = true) ∧
      (s.sell_fast = true → s'.sell_fast = true) ∧
      (s.sell_very_fast = true → s'.sell_very_fast = true)) ∧
    (∀ r, res = some r →
      s'.sell_at_buyprice = false ∧ s'.sell_fast = false ∧
        s'.sell_very_fast = false) := by
  unfold should_close_short at h
  by_cases he : pos.entry_price = 0
  · rw [if_pos he] at h
    cases h
  · rw [if_neg he] at h
    dsimp only at h
    cases h
    set s1 := if rsi < s.lowest_rsi then { s with lowest_rsi := rsi } else s with hs1
    have hflags1 : s1.sell_at_buyprice = s.sell_at_buyprice ∧
        s1.sell_fast = s.sell_fast ∧ s1.sell_very_fast = s.sell_very_fast := by
      rw [hs1]
      split <;> simp
    set s2 := latch_short cfg s1 (pos.update price rsi).entry_price now price
      (now - (pos.update price rsi).entry_time) with hs2
    set s3 := ratchet_very_fast s2 now with hs3
    have hflags3 : (s.sell_at_buyprice = true → s3.sell_at_buyprice = true) ∧
        (s.sell_fast = true → s3.sell_fast = true) ∧
        (s.sell_very_fast = true → s3.sell_very_fast = true) := by
      obtain ⟨r1, r2, r3⟩ := ratchet_very_fast_flags s2 now
      obtain ⟨m1, m2, m3⟩ := latch_short_mono cfg s1 (pos.update price rsi).entry_price
        now price (now - (pos.update price rsi).entry_time)
      rw [hs3]
      exact ⟨fun hb => by rw [r1]; exact m1 (hflags1.1.trans hb),
             fun hb => by rw [r2]; exact m2 (hflags1.2.1.trans hb),
             fun hb => by rw [r3]; exact m3 (hflags1.2.2.trans hb)⟩
    constructor
    · intro hres
      have hpair : close_decision_short cfg s3 (pos.update price rsi) now price rsi
          (now - (pos.update price rsi).entry_time) =
          ((close_decision_short cfg s3 (pos.update price rsi) now price rsi
            (now - (pos.update price rsi).entry_time)).1, none) := by
        rw [← hres]
      have := close_decision_short_none cfg s3 (pos.update price rsi) now price rsi
        (now - (pos.update price rsi).entry_time) _ hpair
      rw [this]
      exact hflags3
    · intro r hres
      have hpair : close_decision_short cfg s3 (pos.update price rsi) now price rsi
          (now - (pos.update price rsi).entry_time) =
          ((close_decision_short cfg s3 (pos.update price rsi) now price rsi
            (now - (pos.update price rsi).entry_time)).1, some r) := by
        rw [← hres]
      exact close_decision_short_some_flags cfg s3 (pos.update price rsi) now price
        rsi (now - (pos.update price rsi).entry_time) _ r hpair

/-- Flag latching along a LONG tick sequence. -/
lemma run_close_long_flags (cfg : StrategyConfig) (ticks : List CloseTickInput) :
    ∀ (s : StrategyState) (pos : Position) (s' : StrategyState) (pos' : Position)
      (closed : Bool),
      run_close_long cfg s pos ticks = .ok (s', pos', closed) →
      (closed = false →
        (s.sell_at_buyprice = true → s'.sell_at_buyprice = true) ∧
        (s.sell_fast = true → s'.sell_fast = true) ∧
        (s.sell_very_fast = true → s'.sell_very_fast = true)) ∧
      (closed = true →
        s'.sell_at_buyprice = false ∧ s'.sell_fast = false ∧
          s'.sell_very_fast = false) := by
  induction ticks with
  | nil =>
    intro s pos s' pos' closed h
    cases h
    exact ⟨fun _ => ⟨id, id, id⟩, fun hc => nomatch hc⟩
  | cons t ts ih =>
    intro s pos s' pos' closed h
    unfold run_close_long at h
    rcases hstep : should_close_long cfg s pos t.now t.price t.rsi with e | out
    · rw [hstep] at h
      cases h
    · obtain ⟨s1, pos1, res1⟩ := out
      rw [hstep] at h
      obtain ⟨hnone, hsome⟩ :=
        should_close_long_flags cfg s pos t.now t.price t.rsi s1 pos1 res1 hstep
      cases res1 with
      | some r =>
        dsimp only at h
        cases h
        exact ⟨fun hc => (nomatch hc), fun _ => hsome r rfl⟩
      | none =>
        dsimp only at h
        obtain ⟨ih1, ih2⟩ := ih s1 pos1 s' pos' closed h
        refine ⟨fun hc => ?_, ih2⟩
        obtain ⟨a1, a2, a3⟩ := hnone rfl
        obtain ⟨b1, b2, b3⟩ := ih1 hc
        exact ⟨fun hb => b1 (a1 hb), fun hb => b2 (a2 hb), fun hb => b3 (a3 hb)⟩

/-- Flag latching along a SHORT tick sequence. -/
lemma run_close_short_flags (cfg : StrategyConfig) (ticks : List CloseTickInput) :
    ∀ (s : StrategyState) (pos : Position) (s' : StrategyState) (pos' : Position)
      (closed : Bool),
      run_close_short cfg s pos ticks = .ok (s', pos', closed) →
      (closed = false →
        (s.sell_at_buyprice = true → s'.sell_at_buyprice = true) ∧
        (s.sell_fast = true → s'.sell_fast = true) ∧
        (s.sell_very_fast = true → s'.sell_very_fast = true)) ∧
      (closed = true →
        s'.sell_at_buyprice = false ∧ s'.sell_fast = false ∧
          s'.sell_very_fast = false) := by
  induction ticks with
  | nil =>
    intro s pos s' pos' closed h
    cases h
    exact ⟨fun _ => ⟨id, id, id⟩, fun hc => nomatch hc⟩
  | cons t ts ih =>
    intro s pos s' pos' closed h
    unfold run_close_short at h
    rcases hstep : should_close_short cfg s pos t.now t.price t.rsi with e | out
    · rw [hstep] at h
      cases h
    · obtain ⟨s1, pos1, res1⟩ := out
      rw [hstep] at h
      obtain ⟨hnone, hsome⟩ :=
        should_close_short_flags cfg s pos t.now t.price t.rsi s1 pos1 res1 hstep
      cases res1 with
      | some r =>
        dsimp only at h
        cases h
        exact ⟨fun hc => (nomatch hc), fun _ => hsome r rfl⟩
      | none =>
        dsimp only at h
        obtain ⟨ih1, ih2⟩ := ih s1 pos1 s' pos' closed h
        refine ⟨fun hc => ?_, ih2⟩
        obtain ⟨a1, a2, a3⟩ := hnone rfl
        obtain ⟨b1, b2, b3⟩ := ih1 hc
        exact ⟨fun hb => b1 (a1 hb), fun hb => b2 (a2 hb), fun hb => b3 (a3 hb)⟩

/-- Claim C5: on every open position (LONG or SHORT), once a tier flag
(`sell_at_buyprice`, `sell_fast`, `sell_very_fast`) is set it stays true on
every subsequent tick until the position closes, whatever the subsequent
prices and indicator values; on the closing tick all three flags are reset
together. -/
theorem tier_flags_latch_until_close :
    (∀ (cfg : StrategyConfig) (ticks : List CloseTickInput) (s : StrategyState)
       (pos : Position) (s' : StrategyState) (pos' : Position),
       run_close_long cfg s pos ticks = .ok (s', pos', false) →
       (s.sell_at_buyprice = true → s'.sell_at_buyprice = true) ∧
       (s.sell_fast = true → s'.sell_fast = true) ∧
       (s.sell_very_fast = true → s'.sell_very_fast = true)) ∧
    (∀ (cfg : StrategyConfig) (ticks : List CloseTickInput) (s : StrategyState)
       (pos : Position) (s' : StrategyState) (pos' : Position),
       run_close_long cfg s pos ticks = .ok (s', pos', true) →
       s'.sell_at_buyprice = false ∧ s'.sell_fast = false ∧
         s'.sell_very_fast = false) ∧
    (∀ (cfg : StrategyConfig) (ticks : List CloseTickInput) (s : StrategyState)
       (pos : Position) (s' : StrategyState) (pos' : Position),
       run_close_short cfg s pos ticks = .ok (s', pos', false) →
       (s.sell_at_buyprice = true → s'.sell_at_buyprice = true) ∧
       (s.sell_fast = true → s'.sell_fast = true) ∧
       (s.sell_very_fast = true → s'.sell_very_fast = true)) ∧
    (∀ (cfg : StrategyConfig) (ticks : List CloseTickInput) (s : StrategyState)
       (pos : Position) (s' : StrategyState) (pos' : Position),
       run_close_short cfg s pos ticks = .ok (s', pos', true) →
       s'.sell_at_buyprice = false ∧ s'.sell_fast = false ∧
         s'.sell_very_fast = false) :=
  ⟨fun cfg ticks s pos s' pos' h =>
    (run_close_long_flags cfg ticks s pos s' pos' false h).1 rfl,
   fun cfg ticks s pos s' pos' h =>
    (run_close_long_flags cfg ticks s pos s' pos' true h).2 rfl,
   fun cfg ticks s pos s' pos' h =>
    (run_close_short_flags cfg ticks s pos s' pos' false h).1 rfl,
   fun cfg ticks s pos s' pos' h =>
    (run_close_short_flags cfg ticks s pos s' pos' true h).2 rfl⟩

/-- Tier 1 (LONG) does nothing when the price is above its adverse target. -/
lemma latch_tier1_long_id (cfg : StrategyConfig) (s : StrategyState)
    (entry price hours_held : ℚ)
    (h : ¬(price ≤ entry - calculate_percentage (1/2) entry)) :
    latch_tier1_long cfg s entry price hours_held = s := by
  unfold latch_tier1_long
  exact if_neg (fun hc => h hc.2.1)

/-- Tier 2 (LONG) does nothing when the price is above its adverse target. -/
lemma latch_tier2_long_id (cfg : StrategyConfig) (s : StrategyState)
    (entry price hours_held : ℚ)
    (h : ¬(price ≤ entry - calculate_percentage 1 entry)) :
    latch_tier2_long cfg s entry price hours_held = s := by
  unfold latch_tier2_long
  exact if_neg (fun hc => h hc.2.1)

/-- Tier 3 (LONG) does nothing when the price is above its adverse target. -/
lemma latch_tier3_long_id (cfg : StrategyConfig) (s : StrategyState)
    (entry now price hours_held : ℚ)
    (h : ¬(price ≤ entry - calculate_percentage 2 entry)) :
    latch_tier3_long cfg s entry now price hours_held = s := by
  unfold latch_tier3_long
  exact if_neg (fun hc => h hc.2.1)

/-- With the price at or above entry (and a positive entry), no LONG tier
can latch. -/
lemma latch_long_id (cfg : StrategyConfig) (s : StrategyState)
    (entry now price hours_held : ℚ) (hpos : 0 < entry) (hge : entry ≤ price) :
    latch_long cfg s entry now price hours_held = s := by
  have h1 : ¬(price ≤ entry - calculate_percentage (1/2) entry) := by
    rw [not_le]
    unfold calculate_percentage
    linarith
  have h2 : ¬(price ≤ entry - calculate_percentage 1 entry) := by
    rw [not_le]
    unfold calculate_percentage
    linarith
  have h3 : ¬(price ≤ entry - calculate_percentage 2 entry) := by
    rw [not_le]
    unfold calculate_percentage
    linarith
  unfold latch_long
  rw [latch_tier1_long_id cfg s entry price hours_held h1,
      latch_tier2_long_id cfg s entry price hours_held h2,
      latch_tier3_long_id cfg s entry now price hours_held h3]

/-- The ratchet is inert while `sell_very_fast` is off. -/
lemma ratchet_very_fast_id (s : StrategyState) (now : ℚ)
    (h : s.sell_very_fast = false) : ratchet_very_fast s now = s := by
  unfold ratchet_very_fast
  rw [if_neg]
  simp [h]

/-- Counterexample for C4: price 2060 reaches the +3% big-profit target on
entry 2000, yet with the indicator oversold (20) and a latched `sell_fast`
flag the exit decision is the tier-2 exit with result LOSS, not the
big-profit WIN. -/
theorem big_profit_overridden_counterexample :
    (2000 : ℚ) + calculate_percentage defaultConfig.big_profit_pct 2000 ≤ 2060 ∧
    (should_close_long defaultConfig
        { initialStrategyState with sell_fast := true }
        ⟨1/2, 2000, 0, 50, 2000, 50, 0, 0⟩ 1 2060 20).map (fun r => r.2.2) =
      .ok (some (.tierFast, .loss)) := by
  constructor
  · norm_num [calculate_percentage, defaultConfig]
  · norm_num [should_close_long, latch_long, latch_tier1_long, latch_tier2_long,
      latch_tier3_long, ratchet_very_fast, close_decision_long, close_commit,
      reset_sell_flags, long_trend, calculate_percentage, Position.update,
      initialStrategyState, defaultConfig, Except.map]

/-- Claim C4 (amended): whenever the price reaches
`entry_price + big_profit_pct` on an open LONG position with NO tier flag
latched and the max-hold cap not yet reached, the decision closes with
result WIN through the big-profit branch for EVERY indicator value, and the
returned position carries `pnl = (price - entry) * quantity`,
`pnl_pct = (price/entry - 1) * 100`; with a latched tier flag and an
oversold indicator, a tier exit can fire first and return LOSS instead
(see the counterexample). -/
theorem big_profit_exit (cfg : StrategyConfig) (s : StrategyState)
    (pos : Position) (now price rsi : ℚ)
    (hb1 : s.sell_at_buyprice = false) (hb2 : s.sell_fast = false)
    (hb3 : s.sell_very_fast = false)
    (hpos : 0 < pos.entry_price) (hbig : 0 ≤ cfg.big_profit_pct)
    (hhold : now - pos.entry_time < cfg.max_hold_hours)
    (hprice : pos.entry_price +
      calculate_percentage cfg.big_profit_pct pos.entry_price ≤ price) :
    (should_close_long cfg s pos now price rsi).map (fun r => r.2.2) =
      .ok (some (.bigProfit, .win)) ∧
    (should_close_long cfg s pos now price rsi).map
        (fun r => (r.2.1.unrealized_pnl, r.2.1.unrealized_pnl_percentage)) =
      .ok ((price - pos.entry_price) * pos.quantity,
           (price / pos.entry_price - 1) * 100) := by
  have hpct : 0 ≤ calculate_percentage cfg.big_profit_pct pos.entry_price := by
    unfold calculate_percentage
    exact mul_nonneg (div_nonneg hbig (by norm_num)) hpos.le
  have hge : pos.entry_price ≤ price := by linarith
  have hmain : should_close_long cfg s pos now price rsi =
      .ok ({ reset_sell_flags
              (if s.highest_rsi < rsi then { s with highest_rsi := rsi } else s)
             with last_sell_time := some now },
           pos.update price rsi, some (.bigProfit, .win)) := by
    unfold should_close_long
    rw [if_neg hpos.ne']
    dsimp only
    simp only [Position.update]
    rw [latch_long_id cfg _ _ now price _ hpos hge]
    rw [ratchet_very_fast_id _ now (by split <;> exact hb3)]
    unfold close_decision_long
    have hH : ¬(cfg.max_hold_hours ≤ now - (pos.update price rsi).entry_time) :=
      not_le.mpr hhold
    rw [if_neg (fun hc => hH hc.1), if_neg (fun hc => hH hc.1),
        if_neg (fun hc =>
          Bool.noConfusion (((by split <;> exact hb1 :
            (if s.highest_rsi < rsi then { s with highest_rsi := rsi } else
              s).sell_at_buyprice = false)).symm.trans hc.2.1)),
        if_neg (fun hc =>
          Bool.noConfusion (((by split <;> exact hb2 :
            (if s.highest_rsi < rsi then { s with highest_rsi := rsi } else
              s).sell_fast = false)).symm.trans hc.2.1)),
        if_neg (fun hc =>
          Bool.noConfusion (((by split <;> exact hb3 :
            (if s.highest_rsi < rsi then { s with highest_rsi := rsi } else
              s).sell_very_fast = false)).symm.trans hc.2.1)),
        if_pos hprice]
    rfl
  rw [hmain]
  exact ⟨rfl, rfl⟩

/-- Witness for C4: the spec's example — entry 2000, quantity 1/2, price
2060 (+3%) — closes as a big-profit WIN with pnl 30 and pnl_pct 3 when no
tier flag is latched. -/
theorem big_profit_exit_witness :
    (should_close_long defaultConfig initialStrategyState
        ⟨1/2, 2000, 0, 50, 2000, 50, 0, 0⟩ 1 2060 50).map (fun r => r.2.2) =
      .ok (some (.bigProfit, .win)) ∧
    (should_close_long defaultConfig initialStrategyState
        ⟨1/2, 2000, 0, 50, 2000, 50, 0, 0⟩ 1 2060 50).map
        (fun r => (r.2.1.unrealized_pnl, r.2.1.unrealized_pnl_percentage)) =
      .ok (((2060 : ℚ) - 2000) * (1/2), ((2060 : ℚ) / 2000 - 1) * 100) :=
  big_profit_exit defaultConfig initialStrategyState
    ⟨1/2, 2000, 0, 50, 2000, 50, 0, 0⟩ 1 2060 50 rfl rfl rfl (by norm_num)
    (by norm_num [defaultConfig]) (by norm_num [defaultConfig])
    (by norm_num [defaultConfig, calculate_percentage])

/-- Witness for C5: a latched `sell_fast` survives a neutral tick. -/
theorem tier_flags_latch_until_close_witness :
    ({ initialStrategyState with sell_fast := true, highest_rsi := 50 } :
        StrategyState).sell_fast = true :=
  (tier_flags_latch_until_close.1 defaultConfig [⟨1, 2000, 50⟩]
      { initialStrategyState with sell_fast := true }
      ⟨1/2, 2000, 0, 50, 2000, 50, 0, 0⟩
      { initialStrategyState with sell_fast := true, highest_rsi := 50 }
      ⟨1/2, 2000, 0, 50, 2000, 50, 0, 0⟩
      (by norm_num [run_close_long, should_close_long, latch_long,
        latch_tier1_long, latch_tier2_long, latch_tier3_long,
        ratchet_very_fast, close_decision_long, close_commit, reset_sell_flags,
        long_trend, calculate_percentage, Position.update, initialStrategyState,
        defaultConfig])).2.1 rfl

/-! ## Entry-engine accumulator invariants -/

/-- The oversold ladder keeps its counter and intensity nonnegative and
never touches the overbought side. -/
lemma oversold_update_inv (cfg : StrategyConfig) (s : StrategyState)
    (now rsi : ℚ) (hc : 0 ≤ s.oversold_counter)
    (hi : 0 ≤ s.oversold_intensity) :
    0 ≤ (oversold_update cfg s now rsi).oversold_counter ∧
    0 ≤ (oversold_update cfg s now rsi).oversold_intensity ∧
    (oversold_update cfg s now rsi).overbought_counter = s.overbought_counter ∧
    (oversold_update cfg s now rsi).overbought_intensity =
      s.overbought_intensity := by
  unfold oversold_update
  dsimp only
  repeat' split
  all_goals dsimp only
  all_goals refine ⟨?_, ?_, rfl, rfl⟩
  all_goals first
    | exact hc
    | exact hi
    | exact le_max_left 0 _
    | omega
    | linarith

/-- The overbought ladder keeps its counter and intensity nonnegative and
never touches the oversold side. -/
lemma overbought_update_inv (cfg : StrategyConfig) (s : StrategyState)
    (now rsi : ℚ) (hc : 0 ≤ s.overbought_counter)
    (hi : 0 ≤ s.overbought_intensity) :
    0 ≤ (overbought_update cfg s now rsi).overbought_counter ∧
    0 ≤ (overbought_update cfg s now rsi).overbought_intensity ∧
    (overbought_update cfg s now rsi).oversold_counter = s.oversold_counter ∧
    (overbought_update cfg s now rsi).oversold_intensity =
      s.oversold_intensity := by
  unfold overbought_update
  dsimp only
  repeat' split
  all_goals dsimp only
  all_goals refine ⟨?_, ?_, rfl, rfl⟩
  all_goals first
    | exact hc
    | exact hi
    | exact le_max_left 0 _
    | omega
    | linarith

/-- `should_buy` preserves nonnegativity of all four accumulators. -/
lemma should_buy_inv (cfg : StrategyConfig) (s : StrategyState)
    (now price rsi : ℚ) (inp : Bool)
    (h1 : 0 ≤ s.oversold_counter) (h2 : 0 ≤ s.oversold_intensity)
    (h3 : 0 ≤ s.overbought_counter) (h4 : 0 ≤ s.overbought_intensity) :
    0 ≤ (should_buy cfg s now price rsi inp).1.oversold_counter ∧
    0 ≤ (should_buy cfg s now price rsi inp).1.oversold_intensity ∧
    0 ≤ (should_buy cfg s now price rsi inp).1.overbought_counter ∧
    0 ≤ (should_buy cfg s now price rsi inp).1.overbought_intensity := by
  unfold should_buy
  split
  · exact ⟨h1, h2, h3, h4⟩
  · split
    · exact ⟨h1, h2, h3, h4⟩
    · dsimp only
      obtain ⟨i1, i2, i3, i4⟩ :=
        oversold_update_inv cfg (update_price_extremes s price rsi) now rsi h1 h2
      split
      · exact ⟨le_refl 0, le_refl 0, by rw [i3]; exact h3, by rw [i4]; exact h4⟩
      · exact ⟨i1, i2, by rw [i3]; exact h3, by rw [i4]; exact h4⟩

/-- `should_short` preserves nonnegativity of all four accumulators. -/
lemma should_short_inv (cfg : StrategyConfig) (s : StrategyState)
    (now price rsi : ℚ) (inp : Bool)
    (h1 : 0 ≤ s.oversold_counter) (h2 : 0 ≤ s.oversold_intensity)
    (h3 : 0 ≤ s.overbought_counter) (h4 : 0 ≤ s.overbought_intensity) :
    0 ≤ (should_short cfg s now price rsi inp).1.oversold_counter ∧
    0 ≤ (should_short cfg s now price rsi inp).1.oversold_intensity ∧
    0 ≤ (should_short cfg s now price rsi inp).1.overbought_counter ∧
    0 ≤ (should_short cfg s now price rsi inp).1.overbought_intensity := by
  unfold should_short
  split
  · exact ⟨h1, h2, h3, h4⟩
  · split
    · exact ⟨h1, h2, h3, h4⟩
    · dsimp only
      obtain ⟨i1, i2, i3, i4⟩ :=
        overbought_update_inv cfg (update_price_extremes s price rsi) now rsi h3 h4
      split
      · exact ⟨by rw [i3]; exact h1, by rw [i4]; exact h2, le_refl 0, le_refl 0⟩
      · exact ⟨by rw [i3]; exact h1, by rw [i4]; exact h2, i1, i2⟩

/-- One entry-engine tick preserves nonnegativity. -/
lemma entry_step_inv (cfg : StrategyConfig) (s : StrategyState) (t : EntryTick)
    (h1 : 0 ≤ s.oversold_counter) (h2 : 0 ≤ s.oversold_intensity)
    (h3 : 0 ≤ s.overbought_counter) (h4 : 0 ≤ s.overbought_intensity) :
    0 ≤ (entry_step cfg s t).oversold_counter ∧
    0 ≤ (entry_step cfg s t).oversold_intensity ∧
    0 ≤ (entry_step cfg s t).overbought_counter ∧
    0 ≤ (entry_step cfg s t).overbought_intensity := by
  cases t with
  | buyTick u => exact should_buy_inv cfg s u.now u.price u.rsi u.in_position h1 h2 h3 h4
  | shortTick u => exact should_short_inv cfg s u.now u.price u.rsi u.in_position h1 h2 h3 h4

/-- Claim C8: along every sequence of per-tick updates of the entry signal
engine (oversold/LONG and overbought/SHORT sides in any interleaving),
starting from the initial zero state, the intensity accumulators and the
counters never become negative. -/
theorem entry_intensity_counter_nonneg (cfg : StrategyConfig)
    (ticks : List EntryTick) :
    0 ≤ (run_entry_ticks cfg initialStrategyState ticks).oversold_counter ∧
    0 ≤ (run_entry_ticks cfg initialStrategyState ticks).oversold_intensity ∧
    0 ≤ (run_entry_ticks cfg initialStrategyState ticks).overbought_counter ∧
    0 ≤ (run_entry_ticks cfg initialStrategyState ticks).overbought_intensity := by
  have hgen : ∀ (ts : List EntryTick) (s : StrategyState),
      0 ≤ s.oversold_counter → 0 ≤ s.oversold_intensity →
      0 ≤ s.overbought_counter → 0 ≤ s.overbought_intensity →
      0 ≤ (run_entry_ticks cfg s ts).oversold_counter ∧
      0 ≤ (run_entry_ticks cfg s ts).oversold_intensity ∧
      0 ≤ (run_entry_ticks cfg s ts).overbought_counter ∧
      0 ≤ (run_entry_ticks cfg s ts).overbought_intensity := by
    intro ts
    induction ts with
    | nil => intro s h1 h2 h3 h4; exact ⟨h1, h2, h3, h4⟩
    | cons t ts ih =>
      intro s h1 h2 h3 h4
      obtain ⟨j1, j2, j3, j4⟩ := entry_step_inv cfg s t h1 h2 h3 h4
      exact ih (entry_step cfg s t) j1 j2 j3 j4
  exact hgen ticks initialStrategyState (le_refl 0) (le_refl 0) (le_refl 0) (le_refl 0)

end RSIBot
